import Mathlib

/-!
# Verification of the cursor star-trail engine (src/script.js)

A shallow embedding of the throttling-and-spawn engine of `src/script.js`.
The script keeps a mutable record `last` with the timestamp and position of
the most recent star spawn and the most recent observed mouse position; on
each gated pointer-move sample it decides whether to spawn a star from a
distance threshold OR an elapsed-time threshold.

Modelling decisions, each justified against the source:

* Coordinates and times are integers (`ℤ`).  `e.clientX`, `e.clientY` and
  `new Date().getTime()` are numbers; integral values suffice for every
  claim, which are all threshold/ordering facts.
* `calcDistance` (line 46) returns `Math.sqrt(diffX² + diffY²)` and is used
  once, in the comparison `calcDistance(...) >= 100` (line 98).  We embed
  the squared distance `calcDistanceSq` and compare against `100²`; the
  lemma `calcDistance_ge_iff` proves this is exactly the source comparison,
  since `Real.sqrt` is monotone and both sides are nonnegative.
* The script reads the wall clock twice per spawning evaluation: once at
  line 97 (`const now = ...`), used by the elapsed-time check, and a second
  time inside `updateLastStar` (line 78), which is the value actually
  stored.  The embedding therefore threads BOTH readings as parameters
  `now` (line 97) and `now2` (line 78); the host clock is non-decreasing,
  so `now ≤ now2`, but the two need not be equal.
* `window.ontouchmove = e => handleOnMove(e.touches[0])` (line 114) passes
  `undefined` when the touch list is empty; inside `handleOnMove`, if
  `isHovering` is true, `e.clientX` then throws a `TypeError`.  We embed
  the extracted event as `Option Pos` (`none` = `undefined`) and fallible
  execution as `Except JSError`.
* `removeElement` (line 57) schedules `banner.removeChild(element)`.  Per
  DOM semantics, `removeChild` succeeds whenever `element` is currently a
  child of `banner` — whether or not `banner` is still attached to the
  document (the closure keeps the parent node alive) — and throws a
  `NotFoundError` `DOMException` when it is not a child.  `Surface` models
  the banner as its attachment flag plus its list of child marker ids, and
  `removeChild` models exactly that host semantics.
* `createStar`'s random color/size selection (lines 60–70) is irrelevant to
  every claim; a spawn is recorded as the spawned position (`Option Pos`
  in the handler's result).
-/

namespace StarTrail

/-- A 2-D pixel position `{x, y}` as built at line 93 of src/script.js
(`{ x: e.clientX, y: e.clientY }`). -/
structure Pos where
  x : ℤ
  y : ℤ
  deriving DecidableEq, Repr

/-- `const originPosition = { x: 0, y: 0 }` (line 22): the sentinel for
"no prior position recorded". -/
def originPosition : Pos := ⟨0, 0⟩

/-- The mutable record `last` (lines 24–28): `starTimestamp`,
`starPosition`, `mousePosition`. -/
structure TrailState where
  starTimestamp : ℤ
  starPosition : Pos
  mousePosition : Pos
  deriving DecidableEq, Repr

/-- `config.minimumTimeBetweenStars` (line 31). -/
def minimumTimeBetweenStars : ℤ := 200

/-- `config.minimumDistanceBetweenStars` (line 32). -/
def minimumDistanceBetweenStars : ℤ := 100

/-- The squared Euclidean distance.  The source's `calcDistance` (lines
46–51) returns `Math.sqrt` of this quantity; see `calcDistance_ge_iff`
for the proof that comparing the square root with `100` is the same as
comparing this square with `100²`. -/
def calcDistanceSq (a b : Pos) : ℤ :=
  (b.x - a.x) ^ 2 + (b.y - a.y) ^ 2

/-- `const calcElapsedTime = (start, end) => end - start` (line 53). -/
def calcElapsedTime (start finish : ℤ) : ℤ := finish - start

/-- `updateLastStar` (lines 77–81): sets `last.starTimestamp` to a FRESH
clock reading (`new Date().getTime()` at line 78, passed here as `tRead`)
and `last.starPosition` to `position`. -/
def updateLastStar (tRead : ℤ) (position : Pos) (s : TrailState) : TrailState :=
  { s with starTimestamp := tRead, starPosition := position }

/-- `updateLastMousePosition` (line 83): `last.mousePosition = position`. -/
def updateLastMousePosition (position : Pos) (s : TrailState) : TrailState :=
  { s with mousePosition := position }

/-- `adjustLastMousePosition` (lines 85–89): if `last.mousePosition` is
still the origin sentinel (component-wise `=== 0` test), replace it by
`position`; otherwise leave the state unchanged. -/
def adjustLastMousePosition (position : Pos) (s : TrailState) : TrailState :=
  if s.mousePosition.x = 0 ∧ s.mousePosition.y = 0 then
    { s with mousePosition := position }
  else
    s

/-- A thrown JavaScript error.  `typeError` models the `TypeError` raised
by reading `e.clientX` when `e` is `undefined`. -/
inductive JSError where
  | typeError
  deriving DecidableEq, Repr

/-- The body of the `if (isHovering)` branch of `handleOnMove`
(lines 93–107), for an already-extracted position:
adjust the sentinel, read the clock (`now`, line 97), evaluate the two
threshold predicates (lines 98–99), on spawn create a star and run
`updateLastStar` (which takes its own clock reading `now2`, line 78),
and finally always run `updateLastMousePosition` (line 107).
Returns the new state and `some position` iff a star was created. -/
def gatedMove (mousePosition : Pos) (now now2 : ℤ) (s : TrailState) :
    TrailState × Option Pos :=
  let s1 := adjustLastMousePosition mousePosition s
  let hasMovedFarEnough :=
    decide (calcDistanceSq s1.starPosition mousePosition ≥
      minimumDistanceBetweenStars ^ 2)
  let hasBeenLongEnough :=
    decide (calcElapsedTime s1.starTimestamp now > minimumTimeBetweenStars)
  let spawnResult :=
    if hasMovedFarEnough || hasBeenLongEnough then
      (updateLastStar now2 mousePosition s1, some mousePosition)
    else
      (s1, (none : Option Pos))
  (updateLastMousePosition mousePosition spawnResult.1, spawnResult.2)

/-- `handleOnMove` (lines 91–110).  `e` is the raw event from which
`clientX`/`clientY` are read (`none` = `undefined`, as delivered by
`ontouchmove` on an empty touch list).  When `isHovering` is false the
body is skipped entirely — in particular `e.clientX` is never read, so
even `e = none` is harmless.  When `isHovering` is true and `e` is
`undefined`, line 93 throws a `TypeError`. -/
def handleOnMove (isHovering : Bool) (e : Option Pos) (now now2 : ℤ)
    (s : TrailState) : Except JSError (TrailState × Option Pos) :=
  if isHovering then
    match e with
    | none => Except.error JSError.typeError
    | some mousePosition => Except.ok (gatedMove mousePosition now now2 s)
  else
    Except.ok (s, none)

/-- `window.ontouchmove = e => handleOnMove(e.touches[0])` (line 114):
the first touch point, or `undefined` when the list is empty. -/
def ontouchmove (isHovering : Bool) (touches : List Pos) (now now2 : ℤ)
    (s : TrailState) : Except JSError (TrailState × Option Pos) :=
  handleOnMove isHovering touches.head? now now2 s

/-- `document.body.onmouseleave = () => updateLastMousePosition(originPosition)`
(line 116). -/
def onDocumentLeave (s : TrailState) : TrailState :=
  updateLastMousePosition originPosition s

/-- The banner element (line 10) as seen by the removal callback: whether
it is still attached to the document, and the list of its current child
marker ids. -/
structure Surface where
  attachedToDocument : Bool
  children : List ℕ
  deriving DecidableEq, Repr

/-- A DOM exception; `notFoundError` is what `Node.removeChild` throws
when the argument is not a child of the node. -/
inductive DOMException where
  | notFoundError
  deriving DecidableEq, Repr

/-- Host semantics of `banner.removeChild(element)`: succeeds (removing
the child) whenever `element` is currently a child of `banner`, whether
or not `banner` is still attached to the document; throws a
`NotFoundError` otherwise. -/
def removeChild (b : Surface) (m : ℕ) : Except DOMException Surface :=
  if m ∈ b.children then
    Except.ok { b with children := b.children.erase m }
  else
    Except.error DOMException.notFoundError

/-- The firing of the timer scheduled by
`removeElement = (element, delay) => setTimeout(() => banner.removeChild(element), delay)`
(line 57): when the delay elapses, the callback runs `banner.removeChild(element)`. -/
def removeElementFire (b : Surface) (m : ℕ) : Except DOMException Surface :=
  removeChild b m

/-! ## Faithfulness bridge for the distance comparison -/

theorem calcDistanceSq_nonneg (a b : Pos) : 0 ≤ calcDistanceSq a b := by
  have hx : (0 : ℤ) ≤ (b.x - a.x) ^ 2 := sq_nonneg _
  have hy : (0 : ℤ) ≤ (b.y - a.y) ^ 2 := sq_nonneg _
  simpa [calcDistanceSq] using add_nonneg hx hy

/-- The source's comparison `calcDistance(a, b) >= 100` (line 98), with
`calcDistance` the real square root of `calcDistanceSq`, is equivalent to
the integer comparison `calcDistanceSq a b ≥ 100²` used in `gatedMove`. -/
theorem calcDistance_ge_iff (a b : Pos) :
    (minimumDistanceBetweenStars : ℝ) ≤ Real.sqrt (calcDistanceSq a b) ↔
      minimumDistanceBetweenStars ^ 2 ≤ calcDistanceSq a b := by
  have h0 : (0 : ℝ) ≤ ((calcDistanceSq a b : ℤ) : ℝ) := by
    exact_mod_cast calcDistanceSq_nonneg a b
  rw [show ((minimumDistanceBetweenStars : ℤ) : ℝ) = (100 : ℝ) by
        norm_num [minimumDistanceBetweenStars]]
  constructor
  · intro h
    have h1 : ((100 : ℝ)) ^ 2 ≤ Real.sqrt (calcDistanceSq a b) ^ 2 := by
      have h100 : (0 : ℝ) ≤ 100 := by norm_num
      exact pow_le_pow_left₀ h100 h 2
    rw [Real.sq_sqrt h0] at h1
    have : ((minimumDistanceBetweenStars ^ 2 : ℤ) : ℝ) ≤ (calcDistanceSq a b : ℝ) := by
      push_cast [minimumDistanceBetweenStars]
      linarith
    exact_mod_cast this
  · intro h
    have h1 : ((100 : ℝ) ^ 2) ≤ ((calcDistanceSq a b : ℤ) : ℝ) := by
      have : ((minimumDistanceBetweenStars ^ 2 : ℤ) : ℝ) ≤ ((calcDistanceSq a b : ℤ) : ℝ) := by
        exact_mod_cast h
      push_cast [minimumDistanceBetweenStars] at this
      linarith
    have h2 : Real.sqrt ((100 : ℝ) ^ 2) ≤ Real.sqrt (calcDistanceSq a b) :=
      Real.sqrt_le_sqrt h1
    rwa [show Real.sqrt ((100 : ℝ) ^ 2) = 100 by
          rw [Real.sqrt_sq]; norm_num] at h2

/-! ## Structural lemmas -/

/-- `adjustLastMousePosition` never touches `last.starPosition`. -/
theorem adjust_starPosition (position : Pos) (s : TrailState) :
    (adjustLastMousePosition position s).starPosition = s.starPosition := by
  unfold adjustLastMousePosition
  split <;> rfl

/-- `adjustLastMousePosition` never touches `last.starTimestamp`. -/
theorem adjust_starTimestamp (position : Pos) (s : TrailState) :
    (adjustLastMousePosition position s).starTimestamp = s.starTimestamp := by
  unfold adjustLastMousePosition
  split <;> rfl

/-- Normal form of one gated evaluation: the threshold test reads only
`starPosition` and `starTimestamp` of the incoming state, the spawning
branch produces the fully determined state `⟨now2, pos, pos⟩`, and the
non-spawning branch only rewrites `mousePosition`. -/
theorem gatedMove_eq (pos : Pos) (now now2 : ℤ) (s : TrailState) :
    gatedMove pos now now2 s =
      if minimumDistanceBetweenStars ^ 2 ≤ calcDistanceSq s.starPosition pos ∨
          minimumTimeBetweenStars < calcElapsedTime s.starTimestamp now then
        (⟨now2, pos, pos⟩, some pos)
      else
        (⟨s.starTimestamp, s.starPosition, pos⟩, none) := by
  unfold gatedMove
  simp only [adjust_starPosition, adjust_starTimestamp, ge_iff_le, gt_iff_lt,
    Bool.or_eq_true, decide_eq_true_eq]
  rcases s with ⟨t, sp, mp⟩
  by_cases hc : minimumDistanceBetweenStars ^ 2 ≤ calcDistanceSq sp pos ∨
      minimumTimeBetweenStars < calcElapsedTime t now
  · simp only [if_pos hc]
    unfold updateLastStar updateLastMousePosition
    rfl
  · simp only [if_neg hc]
    unfold adjustLastMousePosition updateLastMousePosition
    split <;> rfl

/-! ## Claim theorems -/

/-- Claim C1: for every gated sample (HoverFlag true), a star spawns if
and only if the Euclidean distance from the sample to `lastSpawnPosition`
is `≥ 100` (equivalently, the squared distance is `≥ 100²`, see
`calcDistance_ge_iff`) OR the elapsed time since `lastSpawnTimestamp` is
strictly `> 200`; in particular elapsed time exactly `200` with distance
below threshold does not spawn, while distance exactly `100` does. -/
theorem C1_spawn_decision (s : TrailState) (pos : Pos) (now now2 : ℤ) :
    ((gatedMove pos now now2 s).2).isSome = true ↔
      (minimumDistanceBetweenStars ^ 2 ≤ calcDistanceSq s.starPosition pos ∨
        minimumTimeBetweenStars < calcElapsedTime s.starTimestamp now) := by
  rw [gatedMove_eq]
  split <;> simp_all

/-- Claim C2: when `lastPointerPosition` is still the origin sentinel,
the handler first overwrites it with the sample position before the spawn
decision (running the handler on the reset state and on the pre-adjusted
state is indistinguishable), and the first gated sample after a
document-leave reset never spawns solely because of its distance from the
sentinel `{0,0}`: if both real thresholds (against `lastSpawnPosition` /
`lastSpawnTimestamp`) fail, no star spawns, however far the sample is
from the origin. -/
theorem C2_sentinel_correction (s : TrailState) (pos : Pos) (now now2 : ℤ)
    (_hreset : s.mousePosition = originPosition) :
    gatedMove pos now now2 s =
        gatedMove pos now now2 { s with mousePosition := pos } ∧
      (calcDistanceSq s.starPosition pos < minimumDistanceBetweenStars ^ 2 →
        calcElapsedTime s.starTimestamp now ≤ minimumTimeBetweenStars →
        (gatedMove pos now now2 s).2 = none) := by
  constructor
  · rw [gatedMove_eq, gatedMove_eq]
  · intro hd ht
    rw [gatedMove_eq, if_neg]
    push_neg
    exact ⟨hd, ht⟩

/-- Witness for C2 at a concrete reset state: `lastSpawnPosition =
(480, 500)`, sample at `(500, 500)` (squared distance `400 < 100²`),
elapsed `100 ≤ 200`: no spawn, although the sample is far from the
origin sentinel. -/
theorem C2_sentinel_correction_witness :
    (TrailState.mk 0 ⟨480, 500⟩ ⟨0, 0⟩).mousePosition = originPosition ∧
      (gatedMove ⟨500, 500⟩ 100 100 (TrailState.mk 0 ⟨480, 500⟩ ⟨0, 0⟩)).2 = none :=
  ⟨by decide,
    (C2_sentinel_correction (TrailState.mk 0 ⟨480, 500⟩ ⟨0, 0⟩) ⟨500, 500⟩ 100 100
        (by decide)).2 (by decide) (by decide)⟩

/-- Claim C3: while HoverFlag is false, a pointer-move sample (even a
malformed `undefined` one) mutates no component of the throttle state and
creates no star. -/
theorem C3_hover_gate (e : Option Pos) (now now2 : ℤ) (s : TrailState) :
    handleOnMove false e now now2 s = Except.ok (s, none) := rfl

/-- Claim C4: on every gated sample, `lastPointerPosition` becomes the
sample position whether or not a star spawns; `lastSpawnPosition` and
`lastSpawnTimestamp` are written exactly on spawn and are unchanged
otherwise. -/
theorem C4_state_update_discipline (pos : Pos) (now now2 : ℤ) (s : TrailState) :
    ((gatedMove pos now now2 s).1).mousePosition = pos ∧
      (((gatedMove pos now now2 s).2).isSome = true →
        ((gatedMove pos now now2 s).1).starPosition = pos ∧
          ((gatedMove pos now now2 s).1).starTimestamp = now2) ∧
      ((gatedMove pos now now2 s).2 = none →
        ((gatedMove pos now now2 s).1).starPosition = s.starPosition ∧
          ((gatedMove pos now now2 s).1).starTimestamp = s.starTimestamp) := by
  rw [gatedMove_eq]
  split <;> simp

/-- Witness for C4 at a concrete spawning input (distance `200 ≥ 100`)
and a concrete non-spawning input (distance `10`, elapsed `10`). -/
theorem C4_state_update_discipline_witness :
    ((gatedMove ⟨200, 0⟩ 50 50 (TrailState.mk 0 ⟨0, 0⟩ ⟨3, 3⟩)).2).isSome = true ∧
      ((gatedMove ⟨200, 0⟩ 50 50 (TrailState.mk 0 ⟨0, 0⟩ ⟨3, 3⟩)).1).starPosition = ⟨200, 0⟩ ∧
      (gatedMove ⟨10, 0⟩ 10 10 (TrailState.mk 0 ⟨0, 0⟩ ⟨3, 3⟩)).2 = none ∧
      ((gatedMove ⟨10, 0⟩ 10 10 (TrailState.mk 0 ⟨0, 0⟩ ⟨3, 3⟩)).1).starTimestamp = 0 :=
  ⟨by decide,
    ((C4_state_update_discipline ⟨200, 0⟩ 50 50 (TrailState.mk 0 ⟨0, 0⟩ ⟨3, 3⟩)).2.1
      (by decide)).1,
    by decide,
    ((C4_state_update_discipline ⟨10, 0⟩ 10 10 (TrailState.mk 0 ⟨0, 0⟩ ⟨3, 3⟩)).2.2
      (by decide)).2⟩

/-- Claim C5 (code bug): a touch-move event with an empty touch-point
list passes `undefined` to `handleOnMove`; while hovering, line 93 reads
`e.clientX` on `undefined` and THROWS a `TypeError` instead of silently
dropping the sample — the no-throw contract only happens to hold when
`isHovering` is false, because the dereference is inside the gate. -/
theorem C5_empty_touch_list_throws_while_hovering :
    ontouchmove true [] 0 0 ⟨0, originPosition, originPosition⟩ =
        Except.error JSError.typeError ∧
      ontouchmove false [] 0 0 ⟨0, originPosition, originPosition⟩ =
        Except.ok (⟨0, originPosition, originPosition⟩, none) :=
  ⟨rfl, rfl⟩

/-- Counterexample to claim C6: with first clock reading `now = 0` and
second reading `5` (the clock advanced between line 97 and line 78), the
spawning evaluation stores `starTimestamp = 5`, NOT the `now = 0` that
the elapsed-time check compared against. -/
theorem C6_counterexample :
    ((gatedMove ⟨200, 0⟩ 0 5 (TrailState.mk 0 ⟨0, 0⟩ ⟨0, 0⟩)).2).isSome = true ∧
      ((gatedMove ⟨200, 0⟩ 0 5 (TrailState.mk 0 ⟨0, 0⟩ ⟨0, 0⟩)).1).starTimestamp ≠ 0 := by
  constructor
  · rfl
  · decide

/-- Claim C6 as amended: on spawn, `lastSpawnPosition` is set to the
sample position, and `lastSpawnTimestamp` is set to the SECOND clock
reading, taken inside `updateLastStar` (line 78) after the check — it
equals the `now` of the check only when the clock did not advance
between the two reads. -/
theorem C6_spawn_stores_second_reading (pos : Pos) (now now2 : ℤ)
    (s : TrailState) (hspawn : ((gatedMove pos now now2 s).2).isSome = true) :
    ((gatedMove pos now now2 s).1).starTimestamp = now2 ∧
      ((gatedMove pos now now2 s).1).starPosition = pos := by
  rw [gatedMove_eq] at hspawn ⊢
  split at hspawn <;> simp_all

/-- Witness for the amended C6 at a concrete spawning input. -/
theorem C6_spawn_stores_second_reading_witness :
    ((gatedMove ⟨150, 0⟩ 0 7 (TrailState.mk 0 ⟨0, 0⟩ ⟨0, 0⟩)).2).isSome = true ∧
      ((gatedMove ⟨150, 0⟩ 0 7 (TrailState.mk 0 ⟨0, 0⟩ ⟨0, 0⟩)).1).starTimestamp = 7 :=
  ⟨by decide,
    (C6_spawn_stores_second_reading ⟨150, 0⟩ 0 7 (TrailState.mk 0 ⟨0, 0⟩ ⟨0, 0⟩)
      (by decide)).1⟩

/-- Counterexample to claim C7: when the star's membership in the banner
has already been torn down (it is no longer a child — here the banner,
itself detached, has no children left), the late-firing removal callback
runs `banner.removeChild(element)` and THROWS a `NotFoundError` instead
of being a silent no-op. -/
theorem C7_counterexample :
    removeElementFire ⟨false, []⟩ 0 = Except.error DOMException.notFoundError := rfl

/-- Claim C7 as amended: the scheduled removal is a silent success
whenever the star is still a child of the banner — in particular when
only the surface has been torn down (detached from the document) with
its subtree intact — but it throws a `NotFoundError` whenever the star
is no longer a child of the banner. -/
theorem C7_removal_semantics (b : Surface) (m : ℕ) :
    (m ∈ b.children →
        removeElementFire b m = Except.ok { b with children := b.children.erase m }) ∧
      (m ∉ b.children →
        removeElementFire b m = Except.error DOMException.notFoundError) := by
  unfold removeElementFire removeChild
  constructor <;> intro h <;> simp [h]

/-- Witness for the amended C7: a detached banner still holding star `7`;
removal of star `7` succeeds silently. -/
theorem C7_removal_semantics_witness :
    (7 : ℕ) ∈ (Surface.mk false [7]).children ∧
      removeElementFire (Surface.mk false [7]) 7 =
        Except.ok { Surface.mk false [7] with children := [7].erase 7 } :=
  ⟨by decide, (C7_removal_semantics (Surface.mk false [7]) 7).1 (by decide)⟩

/-- Claim C8: the document-leave handler resets `lastPointerPosition` to
the origin sentinel and leaves `lastSpawnPosition` and
`lastSpawnTimestamp` untouched, from every state. -/
theorem C8_document_leave_reset (s : TrailState) :
    (onDocumentLeave s).mousePosition = originPosition ∧
      (onDocumentLeave s).starPosition = s.starPosition ∧
      (onDocumentLeave s).starTimestamp = s.starTimestamp :=
  ⟨rfl, rfl, rfl⟩

/-- Claim C9 (noninterference): two runs of the gated handler that differ
only in the prior `lastPointerPosition` produce identical results — the
same spawn decision, the same created star, and the same entire resulting
throttle state.  `lastPointerPosition` is written but never read by the
threshold check. -/
theorem C9_mouse_position_noninterference (pos mp : Pos) (now now2 : ℤ)
    (s : TrailState) :
    handleOnMove true (some pos) now now2 { s with mousePosition := mp } =
      handleOnMove true (some pos) now now2 s := by
  have h1 : handleOnMove true (some pos) now now2 { s with mousePosition := mp } =
      Except.ok (gatedMove pos now now2 { s with mousePosition := mp }) := rfl
  have h2 : handleOnMove true (some pos) now now2 s =
      Except.ok (gatedMove pos now now2 s) := rfl
  rw [h1, h2, gatedMove_eq, gatedMove_eq]

/-- Claim C10: a genuine gated sample at exactly `{0,0}` leaves
`lastPointerPosition` equal to the origin sentinel, the
sentinel-correction branch fires on the immediately following gated
sample, and the resulting state is literally the same as after a
document-leave reset — the program cannot distinguish a real pointer at
`{0,0}` from the unset state. -/
theorem C10_origin_sample_indistinguishable (now now2 : ℤ) (s : TrailState) :
    ((gatedMove originPosition now now2 s).1).mousePosition = originPosition ∧
      (∀ pos : Pos,
        adjustLastMousePosition pos ((gatedMove originPosition now now2 s).1) =
          { (gatedMove originPosition now now2 s).1 with mousePosition := pos }) ∧
      onDocumentLeave ((gatedMove originPosition now now2 s).1) =
        (gatedMove originPosition now now2 s).1 := by
  rw [gatedMove_eq]
  split <;>
    exact ⟨rfl, fun pos => by simp [adjustLastMousePosition, originPosition],
      rfl⟩

end StarTrail
